import Mathlib

/-!
Shallow embedding of the rs-xlib wrapper library (src/lib.rs, src/cdef.rs).

Foreign (Xlib) routines are modelled by an oracle `ForeignWorld` that fixes
the return value of every foreign call, and every wrapper operation returns,
next to its result, the list of foreign calls it performs (`FCall`), so that
claims about which foreign routines run, how often, and with which arguments
become statements about that trace.  Raw pointers are modelled as natural
number addresses, with `0` playing the role of the null pointer.  Rust
strings are modelled as the list of their bytes.
-/

namespace RsXlib

/-- One foreign (extern "system") call of src/cdef.rs, together with the
argument it was invoked with.  `openDisplay none` is `XOpenDisplay(NULL)`;
`openDisplay (some bytes)` is `XOpenDisplay` on a C string holding `bytes`. -/
inductive FCall where
  | openDisplay : Option (List Nat) → FCall
  | closeDisplay : Nat → FCall
  | xFree : Nat → FCall
  | defaultScreen : Nat → FCall
deriving DecidableEq, Repr

/-- Oracle for the foreign library: what each foreign routine answers for a
given argument.  `openAddr` returns the address produced by `XOpenDisplay`
(0 meaning the null pointer), the others return the raw status codes. -/
structure ForeignWorld where
  openAddr : Option (List Nat) → Nat
  closeStatus : Nat → Int
  freeStatus : Nat → Int
  screenIndex : Nat → Int

/-- Model of `DoNotFree<T>` of src/lib.rs: a wrapper around a raw pointer
(the `data` field) managed by Xlib itself.  The Rust type has no `Drop`
implementation and its accessors perform no foreign call. -/
structure DoNotFree where
  data : Nat
deriving DecidableEq, Repr

/-- Model of `ErrorKind` of src/lib.rs. -/
inductive ErrorKind where
  | InvalidArgumentValue
deriving DecidableEq, Repr

/-- Model of `std::ffi::NulError`: records the position of the first
embedded NUL byte that made the CString conversion fail. -/
structure NulError where
  nulPosition : Nat
deriving DecidableEq, Repr

/-- Model of `XlibError` of src/lib.rs: message, kind, and the optional
underlying error (`side: Option<Box<dyn Error>>`) carried as context. -/
structure XlibError where
  message : String
  kind : ErrorKind
  side : Option NulError
deriving DecidableEq, Repr

/-- Model of `CString::new`: fails exactly when the byte list holds an
embedded NUL (0) byte, reporting its position; otherwise returns the bytes
unchanged. -/
def cstringNew (bytes : List Nat) : Except NulError (List Nat) :=
  if 0 ∈ bytes then Except.error ⟨bytes.indexOf 0⟩ else Except.ok bytes

/-- Model of `x_open_display` of src/lib.rs.  Returns the Rust result
(`Result<Option<DoNotFree<Display>>, XlibError>`) paired with the trace of
foreign calls performed.  With `display_name = none` it calls
`XOpenDisplay` on the null pointer; with `some bytes` it first converts the
bytes through `cstringNew`, returning an `InvalidArgumentValue` error (and
performing no foreign call) on failure; a null (0) address from the foreign
call becomes `Except.ok none`, any other address is wrapped in
`DoNotFree`. -/
def x_open_display (w : ForeignWorld) (display_name : Option (List Nat)) :
    Except XlibError (Option DoNotFree) × List FCall :=
  match display_name with
  | none =>
      let display := w.openAddr none
      if display = 0 then
        (Except.ok none, [FCall.openDisplay none])
      else
        (Except.ok (some ⟨display⟩), [FCall.openDisplay none])
  | some name =>
      match cstringNew name with
      | Except.error err =>
          (Except.error
            { message := "Failed to convert display_name to CString."
              kind := ErrorKind.InvalidArgumentValue
              side := some err }, [])
      | Except.ok cname =>
          let display := w.openAddr (some cname)
          if display = 0 then
            (Except.ok none, [FCall.openDisplay (some cname)])
          else
            (Except.ok (some ⟨display⟩), [FCall.openDisplay (some cname)])

/-- Model of `x_close_display` of src/lib.rs: takes the handle by value
(consuming it), calls `XCloseDisplay` on the wrapped address and returns
the raw status code unmodified. -/
def x_close_display (w : ForeignWorld) (display : DoNotFree) :
    Int × List FCall :=
  (w.closeStatus display.data, [FCall.closeDisplay display.data])

/-- Model of `x_default_screen` of src/lib.rs: takes the handle by mutable
reference (modelled as state passing: the possibly-updated handle is
returned), calls `XDefaultScreen` on the wrapped address and returns its
integer result.  The Rust body never assigns to the handle, so the handle
comes back unchanged. -/
def x_default_screen (w : ForeignWorld) (display : DoNotFree) :
    Int × DoNotFree × List FCall :=
  (w.screenIndex display.data, display, [FCall.defaultScreen display.data])

/-- Model of the private `XBoxFatPtr` of src/lib.rs: base address plus
recorded element count. -/
structure XBoxFatPtr where
  data : Nat
  length : Nat
deriving DecidableEq, Repr

/-- Model of `XBox<T>` of src/lib.rs (the phantom marker is dropped): the
stored fat pointer. -/
structure XBox where
  data : XBoxFatPtr
deriving DecidableEq, Repr

/-- Model of `XBox::from_raw`: single-value case, recorded length 1. -/
def XBox.from_raw (ptr : Nat) : XBox :=
  ⟨⟨ptr, 1⟩⟩

/-- Model of `XBox::boxed_slice_from_raw`: array case, records the base
address and the explicit element count. -/
def XBox.boxed_slice_from_raw (ptr : Nat) (length : Nat) : XBox :=
  ⟨⟨ptr, length⟩⟩

/-- Foreign calls performed by `impl Drop for XBox`: one `XFree` on the
stored base address (the length field is not passed). -/
def XBox.dropCalls (b : XBox) : List FCall :=
  [FCall.xFree b.data.data]

/-- Model of `Deref for XBox<[T]>`: the transmute in src/lib.rs
reinterprets `XBoxFatPtr { data, length }` as the slice fat pointer
(base address, element count), so the exposed slice is the `length`
consecutive elements of memory starting at `data`.  Memory is modelled as
a total function from addresses to values. -/
def XBox.derefSlice {α : Type} (mem : Nat → α) (b : XBox) : List α :=
  (List.range b.data.length).map (fun i => mem (b.data.data + i))

/-- Foreign calls performed by constructing a `DoNotFree` wrapper: none
(the struct literal in src/lib.rs only stores the pointer). -/
def DoNotFree.mkCalls (_d : DoNotFree) : List FCall :=
  []

/-- Foreign calls performed by `Deref for DoNotFree` (read access): none,
the body is a plain pointer dereference. -/
def DoNotFree.derefCalls (_d : DoNotFree) : List FCall :=
  []

/-- Foreign calls performed by `DerefMut for DoNotFree` (mutate access):
none, the body is a plain pointer dereference. -/
def DoNotFree.derefMutCalls (_d : DoNotFree) : List FCall :=
  []

/-- Foreign calls performed when a `DoNotFree` goes out of scope: the type
has no `Drop` implementation in src/lib.rs, so none. -/
def DoNotFree.dropCalls (_d : DoNotFree) : List FCall :=
  []

/-- The complete foreign-call trace of a `DoNotFree` wrapper lifetime:
construction, then `reads` read accesses and `writes` mutate accesses,
then scope exit. -/
def DoNotFree.lifetimeCalls (d : DoNotFree) (reads writes : Nat) :
    List FCall :=
  d.mkCalls ++ (List.replicate reads d.derefCalls).flatten ++
    (List.replicate writes d.derefMutCalls).flatten ++ d.dropCalls

/-- Repeated `x_default_screen` queries threaded through the handle state:
the handle after `n` successive queries on the same world. -/
def repeatedDefaultScreen (w : ForeignWorld) (d : DoNotFree) : Nat → DoNotFree
  | 0 => d
  | n + 1 => (x_default_screen w (repeatedDefaultScreen w d n)).2.1

/-- A concrete foreign world whose open routine always yields the non-null
address 1000, used to evaluate the theorems on concrete inputs. -/
def testWorld : ForeignWorld where
  openAddr := fun _ => 1000
  closeStatus := fun _ => 7
  freeStatus := fun _ => 0
  screenIndex := fun a => (a : Int)

/-- A concrete foreign world whose open routine always yields the null
address 0. -/
def nullOpenWorld : ForeignWorld where
  openAddr := fun _ => 0
  closeStatus := fun _ => 0
  freeStatus := fun _ => 0
  screenIndex := fun _ => 0

theorem flatten_replicate_nil {α : Type} (n : Nat) :
    (List.replicate n ([] : List α)).flatten = [] := by
  induction n with
  | zero => rfl
  | succ n ih => simp [List.replicate_succ, ih]

/-- C1: for every display name whose bytes contain an embedded NUL byte,
x_open_display returns an error of kind InvalidArgumentValue that carries
the underlying string-conversion failure, and performs no foreign call. -/
theorem C1_nul_name_invalid_argument_no_foreign_call
    (w : ForeignWorld) (name : List Nat) (h : 0 ∈ name) :
    ∃ e : XlibError,
      (x_open_display w (some name)).1 = Except.error e ∧
      e.kind = ErrorKind.InvalidArgumentValue ∧
      e.side.isSome = true ∧
      (x_open_display w (some name)).2 = [] := by
  have hc : cstringNew name = Except.error ⟨name.indexOf 0⟩ := by
    simp [cstringNew, h]
  exact ⟨{ message := "Failed to convert display_name to CString."
           kind := ErrorKind.InvalidArgumentValue
           side := some ⟨name.indexOf 0⟩ },
         by simp [x_open_display, hc], rfl, rfl, by simp [x_open_display, hc]⟩

theorem C1_witness :
    (0 : Nat) ∈ [0] ∧
    ∃ e : XlibError,
      (x_open_display testWorld (some [0])).1 = Except.error e ∧
      e.kind = ErrorKind.InvalidArgumentValue ∧
      e.side.isSome = true ∧
      (x_open_display testWorld (some [0])).2 = [] :=
  ⟨by decide,
   C1_nul_name_invalid_argument_no_foreign_call testWorld [0] (by decide)⟩

/-- C2: for every display name whose bytes contain no embedded NUL byte,
x_open_display returns Ok (some handle or none) and never an
Invalid-Argument error. -/
theorem C2_valid_name_never_invalid_argument
    (w : ForeignWorld) (name : List Nat) (h : 0 ∉ name) :
    ∃ r : Option DoNotFree,
      (x_open_display w (some name)).1 = Except.ok r := by
  have hc : cstringNew name = Except.ok name := by simp [cstringNew, h]
  by_cases h0 : w.openAddr (some name) = 0
  · exact ⟨none, by simp [x_open_display, hc, h0]⟩
  · exact ⟨some ⟨w.openAddr (some name)⟩, by simp [x_open_display, hc, h0]⟩

theorem C2_witness :
    (0 : Nat) ∉ ([] : List Nat) ∧
    ∃ r : Option DoNotFree,
      (x_open_display testWorld (some [])).1 = Except.ok r :=
  ⟨by decide, C2_valid_name_never_invalid_argument testWorld [] (by decide)⟩

/-- C3: whenever the foreign open routine answers with the null (0)
address for the passed name argument, x_open_display returns Ok none (an
absent result, not an error), whether the name was absent or a valid
string. -/
theorem C3_null_foreign_result_is_ok_none
    (w : ForeignWorld) (name : Option (List Nat))
    (hvalid : ∀ s, name = some s → 0 ∉ s)
    (hnull : w.openAddr name = 0) :
    (x_open_display w name).1 = Except.ok none := by
  cases name with
  | none => simp [x_open_display, hnull]
  | some s =>
      have hc : cstringNew s = Except.ok s := by
        simp [cstringNew, hvalid s rfl]
      simp [x_open_display, hc, hnull]

theorem C3_witness :
    (∀ s, (none : Option (List Nat)) = some s → 0 ∉ s) ∧
    nullOpenWorld.openAddr none = 0 ∧
    (x_open_display nullOpenWorld none).1 = Except.ok none :=
  ⟨(fun _s h => nomatch h), rfl,
   C3_null_foreign_result_is_ok_none nullOpenWorld none
     (fun _s h => nomatch h) rfl⟩

/-- C4: x_open_display with an absent name always performs exactly the
foreign open call with the null name argument: no validation step runs and
no other foreign call happens. -/
theorem C4_open_none_calls_foreign_with_null_name (w : ForeignWorld) :
    (x_open_display w none).2 = [FCall.openDisplay none] := by
  by_cases h0 : w.openAddr none = 0 <;> simp [x_open_display, h0]

/-- C5: dropping an XBox performs exactly one foreign call, an XFree on
the original base address the wrapper was constructed from; the recorded
element count is not passed (the trace is the same for every count n). -/
theorem C5_xbox_drop_frees_base_address_exactly_once (ptr n : Nat) :
    (XBox.from_raw ptr).dropCalls = [FCall.xFree ptr] ∧
    (XBox.boxed_slice_from_raw ptr n).dropCalls = [FCall.xFree ptr] :=
  ⟨rfl, rfl⟩

/-- C6: an XBox built by boxed_slice_from_raw over base ptr and count n,
when dereferenced, exposes a slice of exactly n elements whose i-th
element is the memory content at address ptr + i. -/
theorem C6_boxed_slice_deref_exposes_exactly_n_elements
    {α : Type} (mem : Nat → α) (ptr n i : Nat) (h : i < n) :
    (XBox.derefSlice mem (XBox.boxed_slice_from_raw ptr n)).length = n ∧
    (XBox.derefSlice mem (XBox.boxed_slice_from_raw ptr n))[i]? =
      some (mem (ptr + i)) := by
  constructor
  · simp [XBox.derefSlice, XBox.boxed_slice_from_raw]
  · simp [XBox.derefSlice, XBox.boxed_slice_from_raw, List.getElem?_map,
      List.getElem?_range, h]

theorem C6_witness :
    (1 : Nat) < 3 ∧
    (XBox.derefSlice (fun a => a) (XBox.boxed_slice_from_raw 10 3)).length = 3 ∧
    (XBox.derefSlice (fun a => a) (XBox.boxed_slice_from_raw 10 3))[1]? =
      some 11 :=
  ⟨by decide,
   C6_boxed_slice_deref_exposes_exactly_n_elements (fun a => a) 10 3 1
     (by decide)⟩

/-- C7: a DoNotFree wrapper performs no foreign call at any point of its
lifetime: construction, any number of read and mutate accesses, and scope
exit together produce an empty foreign-call trace. -/
theorem C7_do_not_free_lifetime_performs_no_foreign_call
    (d : DoNotFree) (reads writes : Nat) :
    d.lifetimeCalls reads writes = [] := by
  simp [DoNotFree.lifetimeCalls, DoNotFree.mkCalls, DoNotFree.derefCalls,
    DoNotFree.derefMutCalls, DoNotFree.dropCalls, flatten_replicate_nil]

/-- C8: x_close_display (which takes the handle by value, consuming it)
performs exactly one foreign call, XCloseDisplay on the wrapped address,
and returns that routine's raw status code unmodified. -/
theorem C8_close_display_calls_close_once_returns_raw_status
    (w : ForeignWorld) (d : DoNotFree) :
    (x_close_display w d).1 = w.closeStatus d.data ∧
    (x_close_display w d).2 = [FCall.closeDisplay d.data] :=
  ⟨rfl, rfl⟩

/-- C9: x_default_screen takes the handle by reference without consuming
it, returns exactly the foreign default-screen routine's integer for the
wrapped address, and leaves the handle unchanged, so any number of
successive queries on the same handle leaves it fixed. -/
theorem C9_default_screen_read_only_returns_foreign_index
    (w : ForeignWorld) (d : DoNotFree) (n : Nat) :
    (x_default_screen w d).1 = w.screenIndex d.data ∧
    (x_default_screen w d).2.1 = d ∧
    repeatedDefaultScreen w d n = d := by
  refine ⟨rfl, rfl, ?_⟩
  induction n with
  | zero => rfl
  | succ n ih => simp [repeatedDefaultScreen, x_default_screen, ih]

/-- C10: every handle returned inside Ok (some _) by x_open_display wraps
a non-null (nonzero) foreign address: the null case is diverted to
Ok none before wrapping. -/
theorem C10_open_display_some_handle_wraps_non_null_address
    (w : ForeignWorld) (name : Option (List Nat)) (d : DoNotFree)
    (h : (x_open_display w name).1 = Except.ok (some d)) :
    d.data ≠ 0 := by
  cases name with
  | none =>
      by_cases h0 : w.openAddr none = 0
      · simp [x_open_display, h0] at h
      · simp [x_open_display, h0] at h
        simp [← h, h0]
  | some s =>
      by_cases hs : 0 ∈ s
      · have hc : cstringNew s = Except.error ⟨s.indexOf 0⟩ := by
          simp [cstringNew, hs]
        simp [x_open_display, hc] at h
      · have hc : cstringNew s = Except.ok s := by simp [cstringNew, hs]
        by_cases h0 : w.openAddr (some s) = 0
        · simp [x_open_display, hc, h0] at h
        · simp [x_open_display, hc, h0] at h
          simp [← h, h0]

theorem C10_witness :
    (x_open_display testWorld none).1 = Except.ok (some ⟨1000⟩) ∧
    (⟨1000⟩ : DoNotFree).data ≠ 0 :=
  ⟨rfl,
   C10_open_display_some_handle_wraps_non_null_address testWorld none
     ⟨1000⟩ rfl⟩

end RsXlib
